import Mathlib

/-!
Verification development for the route-scouter repository.

The file shallowly embeds the core of `src/utils.py` (route parsing,
haversine geometry, route sampling, downsampling, place-result assembly)
and the filter loop of `src/app.py`, and proves the specification claims
about them.

Modelling conventions:
* Python floats that only flow through arithmetic and comparisons are
  modelled as real numbers; values that are compared for Python
  truthiness or equality in control flow (JSON payload numbers) are
  modelled as rationals so that the control flow stays decidable.
* `None`-or-value variables are modelled as `Option`.
* Python truthiness of an optional number (`if x:`) is `x` is not `None`
  and `x ≠ 0`; truthiness of a string is non-emptiness; truthiness of a
  list is non-emptiness.
* Python float string interpolation (the `.1f` format) is modelled by an
  abstract rendering function passed as a parameter.
-/

/-- Python truthiness of an optional rational: `None` and `0` are falsy,
everything else is truthy. -/
def pyTruthyQ (o : Option ℚ) : Prop := o ≠ none ∧ o ≠ some 0

instance (o : Option ℚ) : Decidable (pyTruthyQ o) := by
  unfold pyTruthyQ; infer_instance

/-- Price-tier mapping of `src/utils.py` lines 184-192: the `price_map`
dictionary together with the lookup `price_map.get(price_raw, "")`. -/
def price_display (price_raw : String) : String :=
  if price_raw = "PRICE_LEVEL_FREE" then "Free"
  else if price_raw = "PRICE_LEVEL_INEXPENSIVE" then "$"
  else if price_raw = "PRICE_LEVEL_MODERATE" then "$$"
  else if price_raw = "PRICE_LEVEL_EXPENSIVE" then "$$$"
  else if price_raw = "PRICE_LEVEL_VERY_EXPENSIVE" then "$$$$"
  else ""

/-- The five upstream price-tier codes known to `price_map`. -/
def knownPriceCodes : List String :=
  ["PRICE_LEVEL_FREE", "PRICE_LEVEL_INEXPENSIVE", "PRICE_LEVEL_MODERATE",
   "PRICE_LEVEL_EXPENSIVE", "PRICE_LEVEL_VERY_EXPENSIVE"]

/-- Maps-URL selection of `src/utils.py` lines 199-205.  `place_id` is
`place.get("id", "")`; `lat`/`lon` are the optional coordinate numbers.
`render` stands for Python's float-to-string interpolation inside the
f-string. -/
def maps_url (render : ℚ → String) (place_id : String) (lat lon : Option ℚ) : String :=
  if place_id ≠ "" then
    "https://www.google.com/maps/place/?q=place_id:" ++ place_id
  else if pyTruthyQ lat ∧ pyTruthyQ lon then
    "https://www.google.com/maps/search/?api=1&query=" ++
      render (lat.getD 0) ++ "," ++ render (lon.getD 0)
  else ""

/-- A concrete stand-in for Python float rendering, used for closed
instances of `maps_url`. -/
def renderQ (q : ℚ) : String := toString q.num ++ "/" ++ toString q.den

/-- One `<trkpt>` / `<rtept>` / `<wpt>` element: a latitude-longitude pair. -/
structure GpxPoint where
  latitude : ℚ
  longitude : ℚ
deriving DecidableEq

/-- One `<trkseg>`: a list of track points. -/
structure GpxSegment where
  points : List GpxPoint
deriving DecidableEq

/-- One `<trk>`: a list of segments. -/
structure GpxTrack where
  segments : List GpxSegment
deriving DecidableEq

/-- One `<rte>`: a list of route points. -/
structure GpxRoute where
  points : List GpxPoint
deriving DecidableEq

/-- A parsed GPX document, as exposed by the gpxpy object model used by
`parse_gpx`: tracks (each with segments of points), routes, waypoints. -/
structure Gpx where
  tracks : List GpxTrack
  routes : List GpxRoute
  waypoints : List GpxPoint
deriving DecidableEq

/-- All points of all segments of all tracks, in document order
(the first loop nest of `parse_gpx`, `src/utils.py` lines 19-22). -/
def trackPoints (g : Gpx) : List (ℚ × ℚ) :=
  (g.tracks.map (fun t =>
    (t.segments.map (fun s =>
      s.points.map (fun p => (p.latitude, p.longitude)))).flatten)).flatten

/-- All points of all routes, in document order
(`src/utils.py` lines 26-28). -/
def routePoints (g : Gpx) : List (ℚ × ℚ) :=
  (g.routes.map (fun r =>
    r.points.map (fun p => (p.latitude, p.longitude)))).flatten

/-- All waypoints, in document order (`src/utils.py` lines 32-33). -/
def waypointPoints (g : Gpx) : List (ℚ × ℚ) :=
  g.waypoints.map (fun p => (p.latitude, p.longitude))

/-- `parse_gpx` of `src/utils.py` lines 13-35: collect track points;
if none were found collect route points instead; if still none, collect
waypoints. -/
def parse_gpx (g : Gpx) : List (ℚ × ℚ) :=
  let points := trackPoints g
  let points := if points = [] then routePoints g else points
  let points := if points = [] then waypointPoints g else points
  points

/-- One assembled place record as seen by the filter loop of
`src/app.py` (only the fields the filters read).  `price_level` is the
display string produced by `price_display` (so `""` means unknown);
`rating` and `distance_mi` are optional numbers, `open_now` an optional
boolean. -/
structure FPlace where
  rating : Option ℚ
  price_level : String
  open_now : Option Bool
  distance_mi : Option ℚ
deriving DecidableEq

/-- Whether one place survives the filter loop of `src/app.py`
lines 160-181; each branch mirrors one `continue`. -/
def place_passes (min_rating : ℚ) (price_filter : List String)
    (open_now_only : Bool) (max_distance_mi : ℚ) (p : FPlace) : Bool :=
  if pyTruthyQ p.rating ∧ p.rating.getD 0 < min_rating then false
  else if 0 < min_rating ∧ ¬ pyTruthyQ p.rating then false
  else if price_filter ≠ [] ∧ p.price_level ∉ price_filter ∧ p.price_level ≠ "" then false
  else if open_now_only ∧ p.open_now ≠ some true then false
  else if pyTruthyQ p.distance_mi ∧ max_distance_mi < p.distance_mi.getD 0 then false
  else true

/-- The filter loop itself: keep, in order, the places that are not
skipped by any `continue` (`src/app.py` lines 160-181). -/
def filter_results (min_rating : ℚ) (price_filter : List String)
    (open_now_only : Bool) (max_distance_mi : ℚ)
    (results : List FPlace) : List FPlace :=
  results.filter (place_passes min_rating price_filter open_now_only max_distance_mi)

/-- `downsample_points` of `src/utils.py` lines 115-122.  The Python
float expression `int(i * step)` with `step = (n-1)/(max_points-1)` is
the exact floor `⌊i·(n-1)/(max_points-1)⌋`, i.e. natural division. -/
def downsample_points {α : Type} [Inhabited α]
    (points : List α) (max_points : ℕ := 500) : List α :=
  if points.length ≤ max_points then points
  else
    let n := points.length
    let indices :=
      (List.range (max_points - 1)).map (fun i => i * (n - 1) / (max_points - 1))
        ++ [n - 1]
    indices.map (fun i => points.getD i default)

/-- Helper: the head of a non-empty list is its element at index 0. -/
theorem head?_eq_getD_zero {α : Type} [Inhabited α] (l : List α) (h : l ≠ []) :
    l.head? = some (l.getD 0 default) := by
  cases l with
  | nil => exact absurd rfl h
  | cons x xs => rfl

/-- Helper: the last element of a non-empty list is its element at
index `length - 1`. -/
theorem getLast?_eq_getD_pred {α : Type} [Inhabited α] (l : List α) (h : l ≠ []) :
    l.getLast? = some (l.getD (l.length - 1) default) := by
  rw [List.getLast?_eq_getElem? l, List.getD_eq_getElem?_getD l (l.length - 1) default]
  have hlen : l.length - 1 < l.length := by
    cases l with
    | nil => exact absurd rfl h
    | cons x xs => simp
  rw [List.getElem?_eq_getElem hlen]
  rfl

/-- Helper: on a list longer than `max_points ≥ 2`, `downsample_points`
returns the strided selection followed by the original final element. -/
theorem downsample_points_eq_of_lt {α : Type} [Inhabited α]
    (points : List α) (mp : ℕ) (h : mp < points.length) :
    downsample_points points mp =
      (List.range (mp - 1)).map
          (fun i => points.getD (i * (points.length - 1) / (mp - 1)) default)
        ++ [points.getD (points.length - 1) default] := by
  rw [downsample_points, if_neg (by omega)]
  simp [List.map_append, List.map_map, Function.comp]

/-- Helper: `downsample_points` preserves the last element. -/
theorem downsample_points_getLast? {α : Type} [Inhabited α]
    (points : List α) (mp : ℕ) :
    (downsample_points points mp).getLast? = points.getLast? := by
  rcases le_or_lt points.length mp with hle | hlt
  · rw [downsample_points, if_pos hle]
  · rw [downsample_points_eq_of_lt points mp hlt, List.getLast?_concat,
      getLast?_eq_getD_pred points (by intro he; rw [he] at hlt; simp at hlt)]

/-- C1: on a route longer than `max_points` (≥ 2), `downsample_points`
returns exactly `max_points` coordinates, namely the ones at index
`⌊i·(n-1)/(max_points-1)⌋` for `i = 0, …, max_points-2` followed by the
route's final coordinate; the first and last output coordinates are the
original first and last, and the output length never exceeds
`max_points`.  On a route of at most `max_points` coordinates the list
is returned unchanged. -/
theorem downsample_points_spec {α : Type} [Inhabited α]
    (points : List α) (mp : ℕ) (h2 : 2 ≤ mp) :
    (points.length ≤ mp → downsample_points points mp = points) ∧
    (mp < points.length →
      downsample_points points mp =
        (List.range (mp - 1)).map
            (fun i => points.getD (i * (points.length - 1) / (mp - 1)) default)
          ++ [points.getD (points.length - 1) default] ∧
      (downsample_points points mp).length = mp ∧
      (downsample_points points mp).head? = points.head? ∧
      (downsample_points points mp).getLast? = points.getLast?) ∧
    (downsample_points points mp).length ≤ max mp points.length := by
  refine ⟨fun hle => ?_, fun hlt => ⟨?_, ?_, ?_, ?_⟩, ?_⟩
  · rw [downsample_points, if_pos hle]
  · exact downsample_points_eq_of_lt points mp hlt
  · rw [downsample_points_eq_of_lt points mp hlt]
    simp only [List.length_append, List.length_map, List.length_range,
      List.length_singleton]
    omega
  · rw [downsample_points_eq_of_lt points mp hlt]
    obtain ⟨k, hk⟩ : ∃ k, mp - 1 = k + 1 := ⟨mp - 2, by omega⟩
    rw [hk, List.range_succ_eq_map]
    simp only [List.map_cons, List.cons_append, List.head?_cons]
    rw [head?_eq_getD_zero points (by intro he; rw [he] at hlt; simp at hlt)]
    simp
  · exact downsample_points_getLast? points mp
  · rcases le_or_lt points.length mp with hle | hlt
    · rw [downsample_points, if_pos hle]
      omega
    · rw [downsample_points_eq_of_lt points mp hlt]
      simp only [List.length_append, List.length_map, List.length_range,
        List.length_singleton]
      omega

/-- C1 witness: a 3-point route downsampled to `max_points = 2` has
exactly 2 points. -/
theorem downsample_points_spec_witness :
    2 ≤ 2 ∧ (downsample_points ([10, 20, 30] : List ℕ) 2).length = 2 :=
  ⟨by decide,
   ((downsample_points_spec ([10, 20, 30] : List ℕ) 2 (by decide)).2.1
     (by decide)).2.1⟩

/-- C5: the price-tier mapping is total: each of the five known
upstream codes maps to its documented symbol, and every other string
(the absent/empty case included) maps to the empty "unknown" display
value; no input raises. -/
theorem price_display_total :
    price_display ("PRICE_LEVEL_FREE") = "Free" ∧
    price_display ("PRICE_LEVEL_INEXPENSIVE") = "$" ∧
    price_display ("PRICE_LEVEL_MODERATE") = "$$" ∧
    price_display ("PRICE_LEVEL_EXPENSIVE") = "$$$" ∧
    price_display ("PRICE_LEVEL_VERY_EXPENSIVE") = "$$$$" ∧
    ∀ s : String, s ∉ knownPriceCodes → price_display s = "" := by
  refine ⟨rfl, rfl, rfl, rfl, rfl, ?_⟩
  intro s hs
  simp only [knownPriceCodes, List.mem_cons, List.not_mem_nil, or_false] at hs
  push_neg at hs
  obtain ⟨h1, h2, h3, h4, h5⟩ := hs
  simp [price_display, h1, h2, h3, h4, h5]

/-- C5 witness: an unrecognized code maps to the empty display value. -/
theorem price_display_total_witness :
    ("PRICE_LEVEL_LUXURY" : String) ∉ knownPriceCodes ∧
      price_display ("PRICE_LEVEL_LUXURY") = "" :=
  ⟨by decide, price_display_total.2.2.2.2.2 ("PRICE_LEVEL_LUXURY") (by decide)⟩

/-- C7 counterexample: a place with no identifier but with the present
coordinate (0, -97) yields the empty string, not the coordinate-based
search link required by the claim (a latitude of 0 is falsy in Python,
so `elif lat and lon:` is skipped). -/
theorem maps_url_zero_lat_cex :
    maps_url renderQ ("") (some 0) (some (-97)) = "" ∧
    ("" : String) ≠ "https://www.google.com/maps/search/?api=1&query=" ++
      renderQ 0 ++ "," ++ renderQ (-97) := by
  constructor
  · simp [maps_url, pyTruthyQ]
  · decide

/-- C7 (amended): the link URL is the place-id link whenever the
identifier is non-empty; otherwise the coordinate-based search link
whenever both latitude and longitude are present **and nonzero**
(Python truthiness); otherwise the empty string. -/
theorem maps_url_selection (render : ℚ → String) (place_id : String)
    (lat lon : Option ℚ) :
    (place_id ≠ "" →
      maps_url render place_id lat lon =
        "https://www.google.com/maps/place/?q=place_id:" ++ place_id) ∧
    (place_id = "" → pyTruthyQ lat → pyTruthyQ lon →
      maps_url render place_id lat lon =
        "https://www.google.com/maps/search/?api=1&query=" ++
          render (lat.getD 0) ++ "," ++ render (lon.getD 0)) ∧
    (place_id = "" → ¬ (pyTruthyQ lat ∧ pyTruthyQ lon) →
      maps_url render place_id lat lon = "") := by
  refine ⟨fun h => ?_, fun h h1 h2 => ?_, fun h hn => ?_⟩
  · rw [maps_url, if_pos h]
  · rw [maps_url, if_neg (fun hc => hc h), if_pos ⟨h1, h2⟩]
  · rw [maps_url, if_neg (fun hc => hc h), if_neg hn]

/-- C7 witness: a place with identifier abc gets the stable place-id
link. -/
theorem maps_url_selection_witness :
    maps_url renderQ ("abc") none none =
      "https://www.google.com/maps/place/?q=place_id:abc" :=
  (maps_url_selection renderQ ("abc") none none).1 (by decide)

/-- C8: `parse_gpx` extracts coordinates from exactly one tier in
priority order — all track segment points if any exist, else all route
points, else all waypoints — never merging across tiers, and a document
with no coordinates in any tier yields the empty route rather than an
error. -/
theorem parse_gpx_tier_priority (g : Gpx) :
    (trackPoints g ≠ [] → parse_gpx g = trackPoints g) ∧
    (trackPoints g = [] → routePoints g ≠ [] → parse_gpx g = routePoints g) ∧
    (trackPoints g = [] → routePoints g = [] → parse_gpx g = waypointPoints g) ∧
    (trackPoints g = [] → routePoints g = [] → g.waypoints = [] →
      parse_gpx g = []) := by
  refine ⟨fun h => ?_, fun h1 h2 => ?_, fun h1 h2 => ?_, fun h1 h2 h3 => ?_⟩
  · simp [parse_gpx, h]
  · simp [parse_gpx, h1, h2]
  · simp [parse_gpx, h1, h2]
  · simp [parse_gpx, waypointPoints, h1, h2, h3]

/-- C8 witness: a document with only two waypoints parses to exactly
those two coordinates. -/
theorem parse_gpx_tier_priority_witness :
    parse_gpx ⟨[], [], [⟨1, 2⟩, ⟨3, 4⟩]⟩ = [(1, 2), (3, 4)] :=
  ((parse_gpx_tier_priority ⟨[], [], [⟨1, 2⟩, ⟨3, 4⟩]⟩).2.2.1
    (by decide) (by decide)).trans (by decide)

/-- C6: with an active (non-empty) allowed price set, a place with no
recognized price tier passes the price filter (the outcome equals the
outcome with no price filter at all), a place with a recognized tier
not in the allowed set is excluded, and on the concrete fixture
`[{price:"$$"}, {price:unknown}]` with allowed set `{"$"}` the output is
exactly the unknown-price place. -/
theorem price_filter_policy :
    (∀ (mr : ℚ) (pf : List String) (ono : Bool) (md : ℚ) (p : FPlace),
      pf ≠ [] → p.price_level = "" →
      place_passes mr pf ono md p = place_passes mr [] ono md p) ∧
    (∀ (mr : ℚ) (pf : List String) (ono : Bool) (md : ℚ) (p : FPlace),
      pf ≠ [] → p.price_level ≠ "" → p.price_level ∉ pf →
      place_passes mr pf ono md p = false) ∧
    filter_results 0 ["$"] false 5
        [⟨none, "$$", none, none⟩, ⟨none, "", none, none⟩] =
      [⟨none, "", none, none⟩] := by
  refine ⟨?_, ?_, by decide⟩
  · intro mr pf ono md p hpf hpl
    simp [place_passes, hpl]
  · intro mr pf ono md p hpf hpl hmem
    simp [place_passes, hpf, hpl, hmem]

/-- C6 witness: the two policy directions at concrete inputs. -/
theorem price_filter_policy_witness :
    place_passes 0 ["$"] false 5 ⟨none, "", none, none⟩ =
      place_passes 0 [] false 5 ⟨none, "", none, none⟩ ∧
    place_passes 0 ["$"] false 5 ⟨none, "$$", none, none⟩ = false :=
  ⟨price_filter_policy.1 0 ["$"] false 5 ⟨none, "", none, none⟩
     (by decide) rfl,
   price_filter_policy.2.1 0 ["$"] false 5 ⟨none, "$$", none, none⟩
     (by decide) (by decide) (by decide)⟩

/-- `math.radians`: degrees to radians. -/
noncomputable def radians (x : ℝ) : ℝ := x * Real.pi / 180

/-- Python's `math.atan2 y x` over the reals (signed zeros ignored). -/
noncomputable def atan2 (y x : ℝ) : ℝ :=
  if 0 < x then Real.arctan (y / x)
  else if x < 0 then
    (if 0 ≤ y then Real.arctan (y / x) + Real.pi
     else Real.arctan (y / x) - Real.pi)
  else if 0 < y then Real.pi / 2
  else if y < 0 then -(Real.pi / 2)
  else 0

/-- The intermediate quantity `a` of `haversine_distance`
(`src/utils.py` lines 92-93): `sin²(Δφ/2) + cos φ₁ · cos φ₂ · sin²(Δλ/2)`
with `φᵢ = radians latᵢ`, `Δφ = radians (lat2 - lat1)`,
`Δλ = radians (lon2 - lon1)`. -/
noncomputable def haversine_a (lat1 lon1 lat2 lon2 : ℝ) : ℝ :=
  Real.sin (radians (lat2 - lat1) / 2) ^ 2 +
    Real.cos (radians lat1) * Real.cos (radians lat2) *
      Real.sin (radians (lon2 - lon1) / 2) ^ 2

/-- `haversine_distance` of `src/utils.py` lines 83-96: Earth radius
`R = 6371000` m, `c = 2 · atan2(√a, √(1-a))`, result `R · c`. -/
noncomputable def haversine_distance (lat1 lon1 lat2 lon2 : ℝ) : ℝ :=
  6371000 *
    (2 * atan2 (Real.sqrt (haversine_a lat1 lon1 lat2 lon2))
      (Real.sqrt (1 - haversine_a lat1 lon1 lat2 lon2)))

/-- Helper: the haversine intermediate `a` is symmetric in the two
coordinates. -/
theorem haversine_a_symm (lat1 lon1 lat2 lon2 : ℝ) :
    haversine_a lat1 lon1 lat2 lon2 = haversine_a lat2 lon2 lat1 lon1 := by
  unfold haversine_a radians
  have h1 : Real.sin ((lat1 - lat2) * Real.pi / 180 / 2) ^ 2 =
      Real.sin ((lat2 - lat1) * Real.pi / 180 / 2) ^ 2 := by
    rw [show (lat1 - lat2) * Real.pi / 180 / 2 =
        -((lat2 - lat1) * Real.pi / 180 / 2) by ring, Real.sin_neg, neg_sq]
  have h2 : Real.sin ((lon1 - lon2) * Real.pi / 180 / 2) ^ 2 =
      Real.sin ((lon2 - lon1) * Real.pi / 180 / 2) ^ 2 := by
    rw [show (lon1 - lon2) * Real.pi / 180 / 2 =
        -((lon2 - lon1) * Real.pi / 180 / 2) by ring, Real.sin_neg, neg_sq]
  rw [h1, h2]; ring

/-- Helper: the haversine intermediate `a` vanishes on identical
points. -/
theorem haversine_a_self (lat lon : ℝ) : haversine_a lat lon lat lon = 0 := by
  unfold haversine_a radians
  simp

/-- C9: `haversine_distance` (the haversine formula on a sphere of
radius 6,371,000 m) is symmetric in its two coordinate arguments, and
is 0 on identical points. -/
theorem haversine_distance_props (lat1 lon1 lat2 lon2 p q : ℝ) :
    haversine_distance lat1 lon1 lat2 lon2 =
      haversine_distance lat2 lon2 lat1 lon1 ∧
    haversine_distance p q p q = 0 := by
  constructor
  · unfold haversine_distance
    rw [haversine_a_symm]
  · unfold haversine_distance
    rw [haversine_a_self]
    simp [atan2]

/-- The index positions selected by Python's slice `l[::step]` for a
positive step: `0, step, 2·step, …`, of which there are `⌈n/step⌉`. -/
def sampledIndices (n step : ℕ) : List ℕ :=
  (List.range ((n + step - 1) / step)).map (fun i => i * step)

/-- Python's slice `l[::step]` for a positive step: the elements at the
positions of `sampledIndices`. -/
def pySlice {α : Type} (l : List α) (step : ℕ) : List α :=
  (sampledIndices l.length step).filterMap (fun i => l[i]?)

/-- `distance_from_route` of `src/utils.py` lines 99-112: the running
minimum (Python's `float('inf')` is modelled by `⊤` of `WithTop ℝ`) of
the haversine distances from the place to every `step`-th route point,
with `step = max(1, len(route_points) // 100)`. -/
noncomputable def distance_from_route (place_lat place_lon : ℝ)
    (route_points : List (ℝ × ℝ)) : WithTop ℝ :=
  let step := max 1 (route_points.length / 100)
  let sampled := pySlice route_points step
  sampled.foldl
    (fun min_dist p =>
      if (haversine_distance place_lat place_lon p.1 p.2 : WithTop ℝ) < min_dist
      then (haversine_distance place_lat place_lon p.1 p.2 : WithTop ℝ)
      else min_dist)
    ⊤

/-- Helper: a running-minimum fold is a lower bound of everything it
saw and is either the initial value or attained at a list element. -/
theorem foldl_running_min_le {α : Type} (f : α → WithTop ℝ) :
    ∀ (l : List α) (init : WithTop ℝ),
      (∀ q ∈ l, l.foldl (fun m x => if f x < m then f x else m) init ≤ f q) ∧
      l.foldl (fun m x => if f x < m then f x else m) init ≤ init ∧
      (l.foldl (fun m x => if f x < m then f x else m) init = init ∨
        ∃ q ∈ l, l.foldl (fun m x => if f x < m then f x else m) init = f q) := by
  intro l
  induction l with
  | nil => exact fun init => ⟨by simp, le_refl _, Or.inl rfl⟩
  | cons x xs ih =>
    intro init
    rw [List.foldl_cons]
    rcases lt_or_le (f x) init with hx | hx
    · rw [if_pos hx]
      obtain ⟨ha, hb, hc⟩ := ih (f x)
      refine ⟨?_, le_trans hb (le_of_lt hx), ?_⟩
      · intro q hq
        rcases List.mem_cons.mp hq with h | h
        · subst h; exact hb
        · exact ha q h
      · rcases hc with h | ⟨q, hq, h⟩
        · exact Or.inr ⟨x, List.mem_cons_self x xs, h⟩
        · exact Or.inr ⟨q, List.mem_cons_of_mem x hq, h⟩
    · rw [if_neg (not_lt.mpr hx)]
      obtain ⟨ha, hb, hc⟩ := ih init
      refine ⟨?_, hb, ?_⟩
      · intro q hq
        rcases List.mem_cons.mp hq with h | h
        · subst h; exact le_trans hb hx
        · exact ha q h
      · rcases hc with h | ⟨q, hq, h⟩
        · exact Or.inl h
        · exact Or.inr ⟨q, List.mem_cons_of_mem x hq, h⟩

/-- Helper: for a non-empty list and positive step, the slice begins
with the first element of the list. -/
theorem pySlice_head? {α : Type} (l : List α) (step : ℕ)
    (hl : l ≠ []) (hs : 0 < step) :
    (pySlice l step).head? = l.head? := by
  obtain ⟨x, xs, rfl⟩ := List.exists_cons_of_ne_nil hl
  unfold pySlice sampledIndices
  obtain ⟨c, hceq⟩ : ∃ c, ((x :: xs).length + step - 1) / step = c + 1 := by
    have hpos : 0 < ((x :: xs).length + step - 1) / step := by
      apply Nat.div_pos _ hs
      simp only [List.length_cons]
      omega
    exact ⟨((x :: xs).length + step - 1) / step - 1, by omega⟩
  rw [hceq, List.range_succ_eq_map]
  simp [List.filterMap_cons]

/-- Helper: for a non-empty list and positive step the slice is
non-empty. -/
theorem pySlice_ne_nil {α : Type} (l : List α) (step : ℕ)
    (hl : l ≠ []) (hs : 0 < step) : pySlice l step ≠ [] := by
  intro hemp
  have hh := pySlice_head? l step hl hs
  rw [hemp] at hh
  obtain ⟨x, xs, rfl⟩ := List.exists_cons_of_ne_nil hl
  simp at hh

/-- C2: for every place and every non-empty route,
`distance_from_route` is exactly the minimum haversine distance from
the place to the sampled subset (every k-th route vertex, with
`k = max(1, ⌊n/100⌋)`): it is a lower bound of the distances to all
sampled vertices and is attained at one of them.  Distances to the
interiors of the polyline's segments play no role. -/
theorem distance_from_route_min_spec (place_lat place_lon : ℝ)
    (route : List (ℝ × ℝ)) (h : route ≠ []) :
    (∃ q ∈ pySlice route (max 1 (route.length / 100)),
       distance_from_route place_lat place_lon route =
         (haversine_distance place_lat place_lon q.1 q.2 : WithTop ℝ)) ∧
    (∀ q ∈ pySlice route (max 1 (route.length / 100)),
       distance_from_route place_lat place_lon route ≤
         (haversine_distance place_lat place_lon q.1 q.2 : WithTop ℝ)) := by
  have hs : (0 : ℕ) < max 1 (route.length / 100) :=
    lt_of_lt_of_le Nat.zero_lt_one (le_max_left _ _)
  have hne : pySlice route (max 1 (route.length / 100)) ≠ [] :=
    pySlice_ne_nil route _ h hs
  obtain ⟨ha, _, hc⟩ :=
    foldl_running_min_le
      (fun p : ℝ × ℝ =>
        (haversine_distance place_lat place_lon p.1 p.2 : WithTop ℝ))
      (pySlice route (max 1 (route.length / 100))) ⊤
  have hdef : distance_from_route place_lat place_lon route =
      (pySlice route (max 1 (route.length / 100))).foldl
        (fun m x =>
          if (haversine_distance place_lat place_lon x.1 x.2 : WithTop ℝ) < m
          then (haversine_distance place_lat place_lon x.1 x.2 : WithTop ℝ)
          else m) ⊤ := rfl
  constructor
  · rcases hc with htop | ⟨q, hq, heq⟩
    · exfalso
      obtain ⟨q0, hq0⟩ := List.exists_mem_of_ne_nil _ hne
      have hle := ha q0 hq0
      rw [htop] at hle
      exact WithTop.coe_ne_top (top_le_iff.mp hle)
    · exact ⟨q, hq, hdef.trans heq⟩
  · intro q hq
    exact hdef ▸ ha q hq

/-- C2 witness: a one-point route sampled with step 1. -/
theorem distance_from_route_min_spec_witness :
    (([((0 : ℝ), (0 : ℝ))] : List (ℝ × ℝ)) ≠ []) ∧
    (∃ q ∈ pySlice ([((0 : ℝ), (0 : ℝ))] : List (ℝ × ℝ))
        (max 1 (([((0 : ℝ), (0 : ℝ))] : List (ℝ × ℝ)).length / 100)),
       distance_from_route 0 0 [((0 : ℝ), (0 : ℝ))] =
         (haversine_distance 0 0 q.1 q.2 : WithTop ℝ)) :=
  ⟨by simp,
   (distance_from_route_min_spec 0 0 [((0 : ℝ), (0 : ℝ))] (by simp)).1⟩

/-- Helper: the final index `n-1` is one of the sampled index
positions exactly when the step divides `n-1`. -/
theorem sampledIndices_last_mem (n k : ℕ) (hn : 0 < n) (hk : 0 < k) :
    (n - 1) ∈ sampledIndices n k ↔ k ∣ (n - 1) := by
  unfold sampledIndices
  rw [List.mem_map]
  constructor
  · rintro ⟨i, _, hik⟩
    exact ⟨i, by rw [← hik]; exact mul_comm i k⟩
  · rintro ⟨c, hc⟩
    refine ⟨c, ?_, (mul_comm c k).trans hc.symm⟩
    rw [List.mem_range]
    have h1 : n + k - 1 = (n - 1) + k := by omega
    rw [h1, Nat.add_div_right _ hk, hc, Nat.mul_div_cancel_left c hk]
    omega

/-- Helper: when the step divides `n-1`, the element at the final
position is selected by the slice. -/
theorem pySlice_last_mem {α : Type} (l : List α) (k : ℕ)
    (hl : l ≠ []) (hk : 0 < k) (hdvd : k ∣ (l.length - 1)) :
    ∃ x, l.getLast? = some x ∧ x ∈ pySlice l k := by
  have hn : 0 < l.length := List.length_pos.mpr hl
  have hlen : l.length - 1 < l.length := by omega
  refine ⟨l[l.length - 1], ?_, ?_⟩
  · rw [List.getLast?_eq_getElem? l, List.getElem?_eq_getElem hlen]
  · unfold pySlice
    rw [List.mem_filterMap]
    exact ⟨l.length - 1, (sampledIndices_last_mem l.length k hn hk).mpr hdvd,
      List.getElem?_eq_getElem hlen⟩

/-- C10: the sampling of `distance_from_route` always keeps the route's
first coordinate (the slice even starts with it), selects the final
position `n-1` precisely when `k` divides `n-1` (so the route's final
point can be skipped entirely), and the distance estimate is therefore
never more than the haversine distance to the route's first point —
whereas `downsample_points` preserves the final coordinate
unconditionally. -/
theorem route_sampling_endpoint_spec (place_lat place_lon : ℝ)
    (route : List (ℝ × ℝ)) (h : route ≠ []) :
    (pySlice route (max 1 (route.length / 100))).head? = route.head? ∧
    ((route.length - 1) ∈
        sampledIndices route.length (max 1 (route.length / 100)) ↔
      (max 1 (route.length / 100)) ∣ (route.length - 1)) ∧
    ((max 1 (route.length / 100)) ∣ (route.length - 1) →
      ∃ x, route.getLast? = some x ∧
        x ∈ pySlice route (max 1 (route.length / 100))) ∧
    (∀ x, route.head? = some x →
      distance_from_route place_lat place_lon route ≤
        (haversine_distance place_lat place_lon x.1 x.2 : WithTop ℝ)) ∧
    (downsample_points route 500).getLast? = route.getLast? := by
  have hs : (0 : ℕ) < max 1 (route.length / 100) :=
    lt_of_lt_of_le Nat.zero_lt_one (le_max_left _ _)
  have hn : 0 < route.length := List.length_pos.mpr h
  refine ⟨pySlice_head? route _ h hs,
    sampledIndices_last_mem route.length _ hn hs,
    pySlice_last_mem route _ h hs, ?_, downsample_points_getLast? route 500⟩
  intro x hx
  have hmem : x ∈ pySlice route (max 1 (route.length / 100)) := by
    apply List.mem_of_mem_head?
    show (pySlice route (max 1 (route.length / 100))).head? = some x
    rw [pySlice_head? route _ h hs, hx]
  obtain ⟨ha, _, _⟩ :=
    foldl_running_min_le
      (fun p : ℝ × ℝ =>
        (haversine_distance place_lat place_lon p.1 p.2 : WithTop ℝ))
      (pySlice route (max 1 (route.length / 100))) ⊤
  exact ha x hmem

/-- C10 witness: a concrete three-point route. -/
theorem route_sampling_endpoint_spec_witness :
    (([((0 : ℝ), (0 : ℝ)), (1, 1), (2, 2)] : List (ℝ × ℝ)) ≠ []) ∧
    (pySlice ([((0 : ℝ), (0 : ℝ)), (1, 1), (2, 2)] : List (ℝ × ℝ))
        (max 1 (([((0 : ℝ), (0 : ℝ)), (1, 1), (2, 2)] : List (ℝ × ℝ)).length / 100))).head? =
      ([((0 : ℝ), (0 : ℝ)), (1, 1), (2, 2)] : List (ℝ × ℝ)).head? :=
  ⟨by simp,
   (route_sampling_endpoint_spec 0 0
     ([((0 : ℝ), (0 : ℝ)), (1, 1), (2, 2)] : List (ℝ × ℝ)) (by simp)).1⟩

/-- Python truthiness of an optional real: `None` and `0.0` are falsy. -/
def pyTruthyR (o : Option ℝ) : Prop := o ≠ none ∧ o ≠ some 0

open Classical in
/-- The three distance fields of the result dict built in
`src/utils.py` lines 218-220 from the `dist_from_route` variable:
`distance_m` is the raw value; `distance_mi` is
`dist_from_route / 1609.34 if dist_from_route else None`;
`distance_display` is the rendered `"... mi"` string under the same
truthiness test, else the empty string.  `fmt` stands for the `.1f`
float rendering of the mile value inside the f-string. -/
noncomputable def distance_fields (fmt : ℝ → String)
    (dist_from_route : Option ℝ) : Option ℝ × Option ℝ × String :=
  (dist_from_route,
   if pyTruthyR dist_from_route
     then some (dist_from_route.getD 0 / 1609.34) else none,
   if pyTruthyR dist_from_route
     then fmt (dist_from_route.getD 0 / 1609.34) ++ " mi" else "")

/-- Helper: a rendered mile display string is never empty. -/
theorem append_mi_ne_empty (s : String) : s ++ " mi" ≠ "" := by
  intro h
  have hl := congrArg String.length h
  rw [String.length_append] at hl
  have h3 : (" mi" : String).length = 3 := rfl
  have h0 : ("" : String).length = 0 := rfl
  omega

/-- C3 counterexample: a place lying exactly on a sampled route vertex
has distance 0.0; then `distance_m` is present while `distance_mi` is
absent and the display string is empty, because `0.0` is falsy in
Python — refuting the claimed present-iff-present invariant. -/
theorem distance_fields_zero_cex :
    (distance_fields (fun _ => "0.0") (some 0)).1 = some 0 ∧
    (distance_fields (fun _ => "0.0") (some 0)).2.1 = none ∧
    (distance_fields (fun _ => "0.0") (some 0)).2.2 = "" := by
  refine ⟨rfl, ?_, ?_⟩ <;> simp [distance_fields, pyTruthyR]

/-- C3 (amended): `distance_mi` is present iff `distance_m` is present
with a nonzero value (Python truthiness), and then equals
`distance_m / 1609.34`; the display string is the rendered
`"{mi:.1f} mi"` (in particular non-empty) exactly under the same
condition and the empty string otherwise; `distance_m` is always the
raw optional distance. -/
theorem distance_fields_spec_amended (fmt : ℝ → String) (d : Option ℝ) :
    (distance_fields fmt d).1 = d ∧
    ((distance_fields fmt d).2.1 ≠ none ↔ (d ≠ none ∧ d ≠ some 0)) ∧
    (∀ v : ℝ, d = some v → v ≠ 0 →
      (distance_fields fmt d).2.1 = some (v / 1609.34) ∧
      (distance_fields fmt d).2.2 = fmt (v / 1609.34) ++ " mi") ∧
    ((distance_fields fmt d).2.2 ≠ "" ↔ (d ≠ none ∧ d ≠ some 0)) ∧
    (¬ (d ≠ none ∧ d ≠ some 0) →
      (distance_fields fmt d).2.1 = none ∧ (distance_fields fmt d).2.2 = "") := by
  refine ⟨rfl, ?_, ?_, ?_, ?_⟩
  · by_cases hd : pyTruthyR d
    · simp only [distance_fields, if_pos hd]
      exact ⟨fun _ => hd, fun _ => by simp⟩
    · simp only [distance_fields, if_neg hd]
      exact ⟨fun hc => absurd rfl hc, fun hc => absurd hc hd⟩
  · intro v hv hnz
    have hd : pyTruthyR d := by
      subst hv
      exact ⟨Option.some_ne_none v, fun hc => hnz (Option.some_injective ℝ hc)⟩
    subst hv
    simp only [distance_fields, if_pos hd, Option.getD_some]
    exact ⟨trivial, trivial⟩
  · by_cases hd : pyTruthyR d
    · simp only [distance_fields, if_pos hd]
      exact ⟨fun _ => hd, fun _ => append_mi_ne_empty _⟩
    · simp only [distance_fields, if_neg hd]
      exact ⟨fun hc => absurd rfl hc, fun hc => absurd hc hd⟩
  · intro hd
    simp only [distance_fields, if_neg (fun hc : pyTruthyR d => hd hc)]
    exact ⟨trivial, trivial⟩

/-- C3 witness: a 1609.34 m distance yields a present mile value of
1609.34/1609.34 and its rendered display string. -/
theorem distance_fields_spec_amended_witness :
    (distance_fields (fun _ => "1.0") (some 1)).2.1 = some (1 / 1609.34) ∧
    (distance_fields (fun _ => "1.0") (some 1)).2.2 = "1.0" ++ " mi" :=
  (distance_fields_spec_amended (fun _ => "1.0") (some 1)).2.2.1 1 rfl
    one_ne_zero

/-- The `dist_from_route` computation of `src/utils.py` lines 178-181:
`None` unless the supplied route list is truthy (non-empty) and both
payload coordinates are truthy (`if route_points and lat and lon:`),
in which case it is `distance_from_route(lat, lon, route_points)`.
Payload coordinates are JSON decimals (rationals) coerced to reals for
the geometry. -/
noncomputable def dist_from_route_opt (route_points : List (ℚ × ℚ))
    (lat lon : Option ℚ) : Option (WithTop ℝ) :=
  if route_points ≠ [] ∧ pyTruthyQ lat ∧ pyTruthyQ lon then
    some (distance_from_route ((lat.getD 0 : ℚ) : ℝ) ((lon.getD 0 : ℚ) : ℝ)
      (route_points.map (fun q => ((q.1 : ℝ), (q.2 : ℝ)))))
  else none

/-- C4 counterexample: a place at latitude 0 (on the equator) with a
non-empty route present gets no computed distance: `0.0` is falsy in
Python, so `if route_points and lat and lon:` skips the computation
even though the coordinate is present. -/
theorem dist_from_route_opt_zero_lat_cex :
    dist_from_route_opt [(30, -97)] (some 0) (some (-97)) = none := by
  rw [dist_from_route_opt, if_neg]
  rintro ⟨-, hlat, -⟩
  exact hlat.2 rfl

/-- C4 (amended): the distance is computed (field present) exactly when
the supplied route is non-empty and both latitude and longitude are
present **and nonzero** (Python truthiness); in that case its value is
`distance_from_route` of the coordinate against the route, and in every
other case the field is absent. -/
theorem dist_from_route_opt_spec (route_points : List (ℚ × ℚ))
    (lat lon : Option ℚ) :
    (route_points ≠ [] → pyTruthyQ lat → pyTruthyQ lon →
      dist_from_route_opt route_points lat lon =
        some (distance_from_route ((lat.getD 0 : ℚ) : ℝ) ((lon.getD 0 : ℚ) : ℝ)
          (route_points.map (fun q => ((q.1 : ℝ), (q.2 : ℝ)))))) ∧
    (¬ (route_points ≠ [] ∧ pyTruthyQ lat ∧ pyTruthyQ lon) →
      dist_from_route_opt route_points lat lon = none) ∧
    ((dist_from_route_opt route_points lat lon).isSome ↔
      (route_points ≠ [] ∧ pyTruthyQ lat ∧ pyTruthyQ lon)) := by
  refine ⟨fun h1 h2 h3 => ?_, fun hn => ?_, ?_⟩
  · rw [dist_from_route_opt, if_pos ⟨h1, h2, h3⟩]
  · rw [dist_from_route_opt, if_neg hn]
  · by_cases hc : route_points ≠ [] ∧ pyTruthyQ lat ∧ pyTruthyQ lon
    · rw [dist_from_route_opt, if_pos hc]
      simp only [Option.isSome_some, true_iff]
      exact hc
    · rw [dist_from_route_opt, if_neg hc]
      simp only [Option.isSome_none, Bool.false_eq_true, false_iff]
      exact hc

/-- C4 witness: a truthy coordinate with a non-empty route gives a
present distance field. -/
theorem dist_from_route_opt_spec_witness :
    (dist_from_route_opt [(30, -97)] (some 1) (some (-97))).isSome = true :=
  (dist_from_route_opt_spec [(30, -97)] (some 1) (some (-97))).2.2.mpr
    ⟨by simp, by decide, by decide⟩
